import Mathlib

/-!
Verification of `src/data/process_temperature.py` (WorldClim tmin/tmax rasters
to GeoJSON temperature-change features).

Shallow embedding conventions:
* a floating-point cell value is an `FVal`: either `nan` or a rational number
  (the arithmetic used by the script — add, subtract, divide by the nonzero
  constants 2 and 10 — is exact on the stored values, and NaN propagation is
  modelled explicitly);
* a raster band is a `Grid`, a list of rows of `FVal`;
* the filesystem is a pair of functions: `ex : String → Bool` models
  `os.path.exists`, and `op : String → OpenRes` models `rasterio.open` plus
  the band-1 read, with `OpenRes.ioErr` for `RasterioIOError` and
  `OpenRes.exc` for any other exception raised during open/read;
* `rasterio.features.shapes(change, mask=~isnan(change), transform=t)` is the
  one library call whose behaviour the script depends on: it is modelled by
  `traceShapes`, which groups the non-NaN cells into 4-connected
  equal-valued components, each becoming one polygon feature carrying the
  shared value (geometry is represented by the set of raster cells the
  polygon covers, together with the affine transform placing them);
* writing the GeoJSON file is modelled by producing a `PeriodOutput` record
  holding the output path, the feature list and the CRS.
-/

/-- A floating-point value: NaN or a (finite) rational. -/
inductive FVal where
  | nan : FVal
  | num : ℚ → FVal
deriving DecidableEq, Repr

namespace FVal

/-- IEEE addition on the values the script produces: NaN propagates. -/
def add : FVal → FVal → FVal
  | num a, num b => num (a + b)
  | _, _ => nan

/-- IEEE subtraction: NaN propagates. -/
def sub : FVal → FVal → FVal
  | num a, num b => num (a - b)
  | _, _ => nan

/-- Division by a nonzero constant: NaN propagates. -/
def divC : FVal → ℚ → FVal
  | num a, c => num (a / c)
  | nan, _ => nan

/-- `v == s` for a numeric sentinel `s` (NaN compares unequal to everything,
as in `tmin == nodata` on a float array). -/
def eqNum : FVal → ℚ → Bool
  | num a, s => a = s
  | nan, _ => false

/-- `np.isnan` on one value. -/
def isNaN : FVal → Bool
  | nan => true
  | num _ => false

end FVal

/-- A raster band: rows of cell values. -/
def Grid : Type := List (List FVal)

instance : DecidableEq Grid := by unfold Grid; infer_instance

/-- The affine transform of a raster (six coefficients, as in
`rasterio.transform.Affine`). -/
structure Affine where
  a : ℚ
  b : ℚ
  c : ℚ
  d : ℚ
  e : ℚ
  f : ℚ
deriving DecidableEq, Repr

/-- A coordinate reference system identifier. -/
def CRS : Type := String

instance : DecidableEq CRS := by unfold CRS; infer_instance

/-- What `rasterio.open` + `read(1).astype('float32')` yields for one file:
the band, the declared nodata sentinel (if any), the affine transform and
the CRS. -/
structure Raster where
  band1 : Grid
  nodata : Option ℚ
  transform : Affine
  crs : CRS

/-- Result of attempting to open and read one raster file:
success, a `RasterioIOError`, or any other exception. -/
inductive OpenRes where
  | ok : Raster → OpenRes
  | ioErr : String → OpenRes
  | exc : String → OpenRes

/-- Cell `(i, j)` of a grid; out-of-range reads default to NaN (used only to
state properties, never by the embedded program itself). -/
def cellAt (g : Grid) (i j : ℕ) : FVal :=
  (((g : List (List FVal)).get? i).bind fun row => row.get? j).getD FVal.nan

/-- `arr[arr == nodata] = np.nan` for one row. -/
def maskRow (s : ℚ) (row : List FVal) : List FVal :=
  row.map fun v => if v.eqNum s then FVal.nan else v

/-- Lines 44–46: if a nodata sentinel is declared, replace every cell equal
to it with NaN; otherwise leave the band unchanged. -/
def maskNodata (g : Grid) : Option ℚ → Grid
  | none => g
  | some s => (g : List (List FVal)).map (maskRow s)

/-- Cellwise combination of two grids (numpy elementwise on
equal-shaped arrays). -/
def map2 (f : FVal → FVal → FVal) (g1 g2 : Grid) : Grid :=
  List.zipWith (List.zipWith f) (g1 : List (List FVal)) g2

/-- Line 49: `avg = (tmin + tmax) / 2.0 / 10.0`, cellwise. -/
def avgCell (x y : FVal) : FVal := ((x.add y).divC 2).divC 10

/-- Spec-side definition (§4.2): the per-cell mean of two values. -/
def specMean (x y : FVal) : FVal := (x.add y).divC 2

/-- Spec-side definition (§4.2): "the derived grid is the per-cell mean of
the two arrays, then rescaled by a fixed divisor of 10". Stated from the
spec's words, to be compared with the source-derived `computeAvg`. -/
def specDerivedGrid (tmin tmax : Grid) : Grid :=
  map2 (fun x y => (specMean x y).divC 10) tmin tmax

/-- `(tmin + tmax) / 2.0 / 10.0` on the masked bands. -/
def computeAvg (rmin rmax : Raster) : Grid :=
  map2 avgCell (maskNodata rmin.band1 rmin.nodata) (maskNodata rmax.band1 rmin.nodata)

/-- Lines 28–58, `load_avg_temp(tmin_path, tmax_path)`: open both rasters,
mask the minimum raster's nodata sentinel out of both bands, average and
rescale; any `RasterioIOError` or other exception yields
`(None, None, None)`, modelled as `none`. -/
def load_avg_temp (op : String → OpenRes) (tmin_path tmax_path : String) :
    Option (Grid × Affine × CRS) :=
  match op tmin_path with
  | OpenRes.ioErr _ => none
  | OpenRes.exc _ => none
  | OpenRes.ok rmin =>
    match op tmax_path with
    | OpenRes.ioErr _ => none
    | OpenRes.exc _ => none
    | OpenRes.ok rmax => some (computeAvg rmin rmax, rmin.transform, rmin.crs)

/-! ### Geometry, features and the fallback sample data -/

/-- A feature's geometry: either the polygon traced from a set of raster
cells (placed in world space by the affine transform), or the 5-degree
circular buffer around a sample point (`Point(lon, lat).buffer(radius)`). -/
inductive Geometry where
  | region : List (ℕ × ℕ) → Affine → Geometry
  | circleBuffer : (lon : ℚ) → (lat : ℚ) → (radius : ℚ) → Geometry
deriving DecidableEq, Repr

/-- One GeoJSON feature: the scalar `change` property and a geometry. -/
structure Feature where
  change : FVal
  geometry : Geometry
deriving DecidableEq, Repr

/-- Lines 68–85: the hardcoded `(lat, lon, temp_change)` sample points. -/
def sample_points : List (ℚ × ℚ × ℚ) :=
  [ (60, -100, -5/2),
    (45, -75, 9/5),
    (40, -74, 21/10),
    (35, -118, 16/5),
    (25, -80, 14/5),
    (60, 10, 3/2),
    (50, 0, 2),
    (40, 15, 14/5),
    (35, 140, 23/10),
    (22, 114, 31/10),
    (-35, 151, 13/5),
    (0, 0, 6/5),
    (-20, -50, 9/5),
    (70, -150, -9/5),
    (-60, 0, -1/2) ]

/-- Lines 60–97, `create_sample_data(label)`: one feature per sample point,
a 5-degree buffer around `Point(lon, lat)` carrying the hardcoded value.
The `label` argument is only printed, never used in the result. -/
def create_sample_data (label : String) : List Feature :=
  sample_points.map fun p =>
    { change := FVal.num p.2.2, geometry := Geometry.circleBuffer p.2.1 p.1 5 }

/-! ### The vectorizer: `rasterio.features.shapes` -/

/-- 4-connectivity of raster cells (the default connectivity of
`rasterio.features.shapes`). -/
def adjacent (c1 c2 : ℕ × ℕ) : Bool :=
  (c1.1 = c2.1 && (c1.2 = c2.2 + 1 || c2.2 = c1.2 + 1)) ||
  (c1.2 = c2.2 && (c1.1 = c2.1 + 1 || c2.1 = c1.1 + 1))

/-- All cells of a row, tagged with their `(rowIndex, colIndex)` position,
columns starting at `j`. -/
def rowCellsFrom (i : ℕ) : ℕ → List FVal → List ((ℕ × ℕ) × FVal)
  | _, [] => []
  | j, v :: vs => ((i, j), v) :: rowCellsFrom i (j + 1) vs

/-- All cells of the rows of a grid, rows starting at index `i`. -/
def gridCellsFrom : ℕ → List (List FVal) → List ((ℕ × ℕ) × FVal)
  | _, [] => []
  | i, row :: rows => rowCellsFrom i 0 row ++ gridCellsFrom (i + 1) rows

/-- Every cell of a grid with its position, in raster (row-major) order. -/
def gridCells (g : Grid) : List ((ℕ × ℕ) × FVal) := gridCellsFrom 0 g

/-- The cells where `mask = ~np.isnan(change)` is true, in raster order:
only these participate in vectorization. -/
def validCells (g : Grid) : List ((ℕ × ℕ) × FVal) :=
  (gridCells g).filter fun cv => !cv.2.isNaN

/-- A connected equal-valued region under construction: the shared cell
value and the cells it covers. -/
structure Comp where
  val : FVal
  cells : List (ℕ × ℕ)
deriving DecidableEq, Repr

/-- Does component `k` have value `v` and a cell 4-adjacent to `c`? -/
def touches (c : ℕ × ℕ) (v : FVal) (k : Comp) : Bool :=
  k.val = v && k.cells.any (adjacent c)

/-- Add one masked cell to the region decomposition: merge it with every
existing same-valued component it touches. -/
def addCell (comps : List Comp) (c : ℕ × ℕ) (v : FVal) : List Comp :=
  { val := v,
    cells := c :: ((comps.filter (touches c v)).map Comp.cells).flatten } ::
  comps.filter fun k => !(touches c v k)

/-- Model of `rasterio.features.shapes(change, mask=~isnan(change), ...)`:
decompose the masked cells of the grid into 4-connected equal-valued
components, each yielding one (polygon, value) pair. -/
def traceShapes (g : Grid) : List Comp :=
  (validCells g).foldl (fun comps cv => addCell comps cv.1 cv.2) []

/-- Lines 139–143: the features of the real-data path — one feature per
traced region, `{'change': float(val)}` with the polygon geometry placed by
the grid's transform. -/
def realFeatures (change : Grid) (t : Affine) : List Feature :=
  (traceShapes change).map fun k =>
    { change := k.val, geometry := Geometry.region k.cells t }

/-- The row of a grid at index `i` (out of range: the empty row; used only
to state properties). -/
def rowAt (g : Grid) (i : ℕ) : List FVal :=
  ((g : List (List FVal)).get? i).getD []

/-- The spec-side invariant on emitted features (§3 of the spec): a non-null
geometry — a traced region covering at least one cell, or a positive-radius
buffer — and a finite scalar property. -/
def nonNullGeometry : Geometry → Prop
  | Geometry.region cells _ => cells ≠ []
  | Geometry.circleBuffer _ _ radius => 0 < radius

/-- Invariant carried by the vectorizer's fold: every component covers at
least one cell, its value is finite, and each of its cells holds exactly
that value in the source grid. -/
def goodComps (g : Grid) (comps : List Comp) : Prop :=
  ∀ k ∈ comps, k.cells ≠ [] ∧ k.val.isNaN = false ∧
    ∀ c ∈ k.cells, cellAt g c.1 c.2 = k.val

/-! ### `main`: configuration, baseline, per-period processing -/

/-- A period descriptor: `(label, tmin_file, tmax_file)`. -/
def Period : Type := String × String × String

/-- The module-level configuration (lines 16–25): period list, input and
output directories, optional baseline period. The source file sets
`PERIODS` to the four SSP5-8.5 WorldClim periods, `DATA_DIR = ""`,
`OUTPUT_DIR = "../../public/data"` and `BASELINE_PERIOD = None`; the
claims quantify over edited configurations, so the table is a parameter. -/
structure Config where
  PERIODS : List Period
  DATA_DIR : String
  OUTPUT_DIR : String
  BASELINE_PERIOD : Option Period

/-- The configuration as committed in the source file. -/
def sourceConfig : Config where
  PERIODS :=
    [ ("2021-2040", "wc2.1_10m_tmin_ACCESS-CM2_ssp585_2021-2040.tif",
        "wc2.1_10m_tmax_ACCESS-CM2_ssp585_2021-2040.tif"),
      ("2041-2060", "wc2.1_10m_tmin_ACCESS-CM2_ssp585_2041-2060.tif",
        "wc2.1_10m_tmax_ACCESS-CM2_ssp585_2041-2060.tif"),
      ("2061-2080", "wc2.1_10m_tmin_ACCESS-CM2_ssp585_2061-2080.tif",
        "wc2.1_10m_tmax_ACCESS-CM2_ssp585_2061-2080.tif"),
      ("2081-2100", "wc2.1_10m_tmin_ACCESS-CM2_ssp585_2081-2100.tif",
        "wc2.1_10m_tmax_ACCESS-CM2_ssp585_2081-2100.tif") ]
  DATA_DIR := ""
  OUTPUT_DIR := "../../public/data"
  BASELINE_PERIOD := none

/-- `os.path.join(d, f)` for the relative paths this script builds:
joining with the empty directory (the shipped `DATA_DIR`) leaves the name
unchanged, otherwise a separator is inserted. -/
def joinPath (d f : String) : String :=
  if d = "" then f else d ++ "/" ++ f

/-- Lines 104–109, `tiff_files_exist`: does some period's pair of files
exist? Note the pre-check tests the bare file names, without joining
`DATA_DIR` (unlike the per-period check at lines 125–128). -/
def tiff_files_exist (ex : String → Bool) (periods : List Period) : Bool :=
  periods.any fun p => ex p.2.1 && ex p.2.2

/-- Lines 115–119: `baseline_arr`, loaded once when a baseline period is
configured and some period's pair exists; a failed load leaves it `None`. -/
def baseline_arr (cfg : Config) (ex : String → Bool) (op : String → OpenRes) :
    Option Grid :=
  match cfg.BASELINE_PERIOD with
  | none => none
  | some bp =>
    if tiff_files_exist ex cfg.PERIODS then
      match load_avg_temp op (joinPath cfg.DATA_DIR bp.2.1)
          (joinPath cfg.DATA_DIR bp.2.2) with
      | some (g, _, _) => some g
      | none => none
    else none

/-- Lines 134–137: subtract the baseline if one is held, else pass the
average through. -/
def changeOf (baseline : Option Grid) (avg : Grid) : Grid :=
  match baseline with
  | some b => map2 FVal.sub avg b
  | none => avg

/-- What `main` persists for one period: the output file path, the feature
list and the CRS handed to `GeoDataFrame.from_features`. -/
structure PeriodOutput where
  path : String
  features : List Feature
  crs : CRS
deriving DecidableEq

/-- Lines 121–160, one iteration of the period loop: existence check, real
data path (load, optional baseline subtraction, vectorize) or sample-data
fallback, and the output path `avg_temp_change_<label>.json`. -/
def processPeriod (ex : String → Bool) (op : String → OpenRes)
    (dataDir outputDir : String) (baseline : Option Grid) (p : Period) :
    PeriodOutput :=
  let tmin_path := joinPath dataDir p.2.1
  let tmax_path := joinPath dataDir p.2.2
  let out_path := joinPath outputDir ("avg_temp_change_" ++ p.1 ++ ".json")
  if ex tmin_path && ex tmax_path then
    match load_avg_temp op tmin_path tmax_path with
    | some (avg, transform, crs) =>
      { path := out_path,
        features := realFeatures (changeOf baseline avg) transform,
        crs := crs }
    | none =>
      { path := out_path, features := create_sample_data p.1, crs := "EPSG:4326" }
  else
    { path := out_path, features := create_sample_data p.1, crs := "EPSG:4326" }

/-- Lines 99–163, `main`: compute the baseline once, then process every
configured period in order, producing one output file each. -/
def mainOutputs (cfg : Config) (ex : String → Bool) (op : String → OpenRes) :
    List PeriodOutput :=
  cfg.PERIODS.map
    (processPeriod ex op cfg.DATA_DIR cfg.OUTPUT_DIR (baseline_arr cfg ex op))

/-! ### Concrete example inputs (spec §8's example scenario and variants) -/

/-- A sample affine transform (10-minute global grid placement is irrelevant
to the claims; any transform works). -/
def c7t : Affine := { a := 1, b := 0, c := -180, d := 0, e := -1, f := 90 }

/-- The spec §8 example minimum-temperature band: 4×4, all `100` (tenths of
a degree) except one nodata cell `-9999` at `(1, 1)`. -/
def c7minBand : Grid :=
  [ [FVal.num 100, FVal.num 100, FVal.num 100, FVal.num 100],
    [FVal.num 100, FVal.num (-9999), FVal.num 100, FVal.num 100],
    [FVal.num 100, FVal.num 100, FVal.num 100, FVal.num 100],
    [FVal.num 100, FVal.num 100, FVal.num 100, FVal.num 100] ]

/-- The spec §8 example maximum-temperature band: 4×4, all `200`. -/
def c7maxBand : Grid :=
  [ [FVal.num 200, FVal.num 200, FVal.num 200, FVal.num 200],
    [FVal.num 200, FVal.num 200, FVal.num 200, FVal.num 200],
    [FVal.num 200, FVal.num 200, FVal.num 200, FVal.num 200],
    [FVal.num 200, FVal.num 200, FVal.num 200, FVal.num 200] ]

/-- The example minimum-temperature raster, declaring the `-9999` sentinel. -/
def c7min : Raster :=
  { band1 := c7minBand, nodata := some (-9999), transform := c7t,
    crs := "EPSG:4326" }

/-- The example maximum-temperature raster. -/
def c7max : Raster :=
  { band1 := c7maxBand, nodata := some (-9999), transform := c7t,
    crs := "EPSG:4326" }

/-- A filesystem opening exactly the two example files. -/
def c7op : String → OpenRes := fun pth =>
  if pth = "tmin.tif" then OpenRes.ok c7min
  else if pth = "tmax.tif" then OpenRes.ok c7max
  else OpenRes.ioErr "No such file or directory"

/-- Existence check for the two example files. -/
def c7ex : String → Bool := fun pth => pth = "tmin.tif" || pth = "tmax.tif"

/-- The expected derived grid of the example: `15.0` everywhere except NaN
at the nodata cell `(1, 1)`. -/
def c7derived : Grid :=
  [ [FVal.num 15, FVal.num 15, FVal.num 15, FVal.num 15],
    [FVal.num 15, FVal.nan, FVal.num 15, FVal.num 15],
    [FVal.num 15, FVal.num 15, FVal.num 15, FVal.num 15],
    [FVal.num 15, FVal.num 15, FVal.num 15, FVal.num 15] ]

/-- The cells of the one traced polygon of the example, as emitted by the
vectorizer: the 15 valid cells of the 4×4 grid, `(1, 1)` excluded. -/
def c7cells : List (ℕ × ℕ) :=
  [ (3, 3), (3, 2), (3, 1), (3, 0),
    (2, 3), (2, 2), (2, 1), (2, 0),
    (1, 3), (1, 2), (1, 0),
    (0, 3), (0, 2), (0, 1), (0, 0) ]

/-- A 1×1 raster whose only cell equals its own nodata sentinel: loading it
yields an all-NaN derived grid. -/
def c10r : Raster :=
  { band1 := [[FVal.num 5]], nodata := some 5, transform := c7t,
    crs := "EPSG:4326" }

/-- A filesystem whose every file opens as the all-nodata raster `c10r`. -/
def c10op : String → OpenRes := fun _ => OpenRes.ok c10r

/-- A filesystem on which every open attempt raises `RasterioIOError`. -/
def c5op : String → OpenRes := fun _ => OpenRes.ioErr "corrupt file"

/-- A configuration with a baseline period, for exercising the baseline
failure paths. -/
def c9cfg : Config :=
  { sourceConfig with
      BASELINE_PERIOD :=
        some ("1970-2000", "wc2.1_10m_tmin_1970-2000.tif",
          "wc2.1_10m_tmax_1970-2000.tif") }

/-! ## Lemmas -/

theorem FVal.isNaN_eq_false_iff (v : FVal) : v.isNaN = false ↔ ∃ q, v = FVal.num q := by
  cases v <;> simp [FVal.isNaN]

theorem avgCell_nan_left (y : FVal) : avgCell FVal.nan y = FVal.nan := by
  cases y <;> rfl

theorem avgCell_nan_right (x : FVal) : avgCell x FVal.nan = FVal.nan := by
  cases x <;> rfl

theorem FVal.sub_nan_left (y : FVal) : FVal.sub FVal.nan y = FVal.nan := by
  cases y <;> rfl

theorem FVal.sub_nan_right (x : FVal) : FVal.sub x FVal.nan = FVal.nan := by
  cases x <;> rfl

theorem cellAt_eq_rowAt (g : Grid) (i j : ℕ) :
    cellAt g i j = ((rowAt g i).get? j).getD FVal.nan := by
  unfold cellAt rowAt
  cases (g : List (List FVal)).get? i <;> simp

theorem getD_get?_zipWith {α β γ : Type} (f : α → β → γ) (da : α) (db : β) (dg : γ)
    (h1 : ∀ b, f da b = dg) (h2 : ∀ a, f a db = dg) (as : List α) :
    ∀ (bs : List β) (j : ℕ),
      ((List.zipWith f as bs).get? j).getD dg =
        f ((as.get? j).getD da) ((bs.get? j).getD db) := by
  induction as with
  | nil => intro bs j; cases bs <;> cases j <;> simp [h1]
  | cons a as ih =>
    intro bs j
    cases bs with
    | nil => cases j <;> simp [h2]
    | cons b bs =>
      cases j with
      | zero => simp
      | succ j => simpa using ih bs j

theorem rowAt_map2 (f : FVal → FVal → FVal) (g1 g2 : Grid) (i : ℕ) :
    rowAt (map2 f g1 g2) i = List.zipWith f (rowAt g1 i) (rowAt g2 i) := by
  unfold rowAt map2
  exact getD_get?_zipWith (List.zipWith f) [] [] [] (by simp) (by simp) g1 g2 i

theorem cellAt_map2 (f : FVal → FVal → FVal)
    (h1 : ∀ y, f FVal.nan y = FVal.nan) (h2 : ∀ x, f x FVal.nan = FVal.nan)
    (g1 g2 : Grid) (i j : ℕ) :
    cellAt (map2 f g1 g2) i j = f (cellAt g1 i j) (cellAt g2 i j) := by
  rw [cellAt_eq_rowAt, cellAt_eq_rowAt, cellAt_eq_rowAt, rowAt_map2]
  exact getD_get?_zipWith f FVal.nan FVal.nan FVal.nan h1 h2 _ _ j

theorem rowAt_maskNodata (g : Grid) (s : ℚ) (i : ℕ) :
    rowAt (maskNodata g (some s)) i = maskRow s (rowAt g i) := by
  unfold rowAt maskNodata
  rw [List.get?_map]
  cases (g : List (List FVal)).get? i <;> simp [maskRow]

theorem cellAt_maskNodata (g : Grid) (s : ℚ) (i j : ℕ) :
    cellAt (maskNodata g (some s)) i j =
      if (cellAt g i j).eqNum s then FVal.nan else cellAt g i j := by
  rw [cellAt_eq_rowAt, cellAt_eq_rowAt, rowAt_maskNodata]
  unfold maskRow
  rw [List.get?_map]
  cases (rowAt g i).get? j with
  | none => simp [FVal.eqNum]
  | some v => simp

theorem mem_rowCellsFrom (i0 : ℕ) (row : List FVal) :
    ∀ (j0 i j : ℕ) (v : FVal), ((i, j), v) ∈ rowCellsFrom i0 j0 row →
      i = i0 ∧ j0 ≤ j ∧ row.get? (j - j0) = some v := by
  induction row with
  | nil => intro j0 i j v h; simp [rowCellsFrom] at h
  | cons a row ih =>
    intro j0 i j v h
    simp only [rowCellsFrom, List.mem_cons] at h
    rcases h with h | h
    · obtain ⟨h1, h2⟩ := Prod.mk.injEq .. ▸ h
      obtain ⟨hi, hj⟩ := Prod.mk.injEq .. ▸ h1
      subst hi; subst hj; subst h2
      exact ⟨rfl, le_refl _, by simp⟩
    · obtain ⟨hi, hle, hget⟩ := ih (j0 + 1) i j v h
      refine ⟨hi, by omega, ?_⟩
      have hj : j - j0 = (j - (j0 + 1)) + 1 := by omega
      rw [hj]
      simpa using hget

theorem mem_gridCellsFrom (rows : List (List FVal)) :
    ∀ (i0 i j : ℕ) (v : FVal), ((i, j), v) ∈ gridCellsFrom i0 rows →
      ∃ row, rows.get? (i - i0) = some row ∧ i0 ≤ i ∧ row.get? j = some v := by
  induction rows with
  | nil => intro i0 i j v h; simp [gridCellsFrom] at h
  | cons row rows ih =>
    intro i0 i j v h
    simp only [gridCellsFrom, List.mem_append] at h
    rcases h with h | h
    · obtain ⟨hi, _, hget⟩ := mem_rowCellsFrom i0 row 0 i j v h
      subst hi
      exact ⟨row, by simp, le_refl _, by simpa using hget⟩
    · obtain ⟨row2, hrow, hle, hget⟩ := ih (i0 + 1) i j v h
      refine ⟨row2, ?_, by omega, hget⟩
      have hi : i - i0 = (i - (i0 + 1)) + 1 := by omega
      rw [hi]
      simpa using hrow

theorem cellAt_of_mem_gridCells (g : Grid) (i j : ℕ) (v : FVal)
    (h : ((i, j), v) ∈ gridCells g) : cellAt g i j = v := by
  obtain ⟨row, hrow, _, hget⟩ := mem_gridCellsFrom g 0 i j v h
  rw [Nat.sub_zero] at hrow
  unfold cellAt
  rw [hrow]
  show (row.get? j).getD FVal.nan = v
  rw [hget]
  rfl

theorem validCells_spec (g : Grid) :
    ∀ cv ∈ validCells g, cellAt g cv.1.1 cv.1.2 = cv.2 ∧ cv.2.isNaN = false := by
  intro cv hcv
  obtain ⟨⟨i, j⟩, v⟩ := cv
  rw [validCells, List.mem_filter] at hcv
  obtain ⟨hmem, hmask⟩ := hcv
  exact ⟨cellAt_of_mem_gridCells g i j v hmem, by simpa using hmask⟩

theorem touches_val {c : ℕ × ℕ} {v : FVal} {k : Comp} (h : touches c v k = true) :
    k.val = v := by
  unfold touches at h
  simp only [Bool.and_eq_true, decide_eq_true_eq] at h
  exact h.1

theorem addCell_good (g : Grid) (comps : List Comp) (c : ℕ × ℕ) (v : FVal)
    (hg : goodComps g comps) (hc : cellAt g c.1 c.2 = v) (hv : v.isNaN = false) :
    goodComps g (addCell comps c v) := by
  intro k hk
  unfold addCell at hk
  rcases List.mem_cons.mp hk with hk | hk
  · subst hk
    refine ⟨by simp, hv, ?_⟩
    intro c2 hc2
    rcases List.mem_cons.mp hc2 with hc2 | hc2
    · subst hc2; exact hc
    · rw [List.mem_flatten] at hc2
      obtain ⟨cs, hcs, hc2⟩ := hc2
      rw [List.mem_map] at hcs
      obtain ⟨k2, hk2, rfl⟩ := hcs
      rw [List.mem_filter] at hk2
      obtain ⟨hk2m, hk2t⟩ := hk2
      rw [(hg k2 hk2m).2.2 c2 hc2, touches_val hk2t]
  · rw [List.mem_filter] at hk
    exact hg k hk.1

theorem foldl_addCell_good (g : Grid) (l : List ((ℕ × ℕ) × FVal)) :
    ∀ comps : List Comp,
      (∀ cv ∈ l, cellAt g cv.1.1 cv.1.2 = cv.2 ∧ cv.2.isNaN = false) →
      goodComps g comps →
      goodComps g (l.foldl (fun cs cv => addCell cs cv.1 cv.2) comps) := by
  induction l with
  | nil => intro comps _ hg; exact hg
  | cons cv l ih =>
    intro comps hl hg
    simp only [List.foldl_cons]
    refine ih _ (fun cv2 h => hl cv2 (List.mem_cons_of_mem _ h)) ?_
    have hcv := hl cv (List.mem_cons_self _ _)
    exact addCell_good g comps cv.1 cv.2 hg hcv.1 hcv.2

theorem traceShapes_good (g : Grid) : goodComps g (traceShapes g) := by
  unfold traceShapes
  refine foldl_addCell_good g (validCells g) [] (validCells_spec g) ?_
  intro k hk
  exact absurd hk (List.not_mem_nil k)

theorem traceShapes_not_mem_of_nan (g : Grid) (i j : ℕ)
    (h : (cellAt g i j).isNaN = true) :
    ∀ k ∈ traceShapes g, (i, j) ∉ k.cells := by
  intro k hk hmem
  obtain ⟨_, hval, hcells⟩ := traceShapes_good g k hk
  rw [hcells (i, j) hmem, hval] at h
  exact Bool.false_ne_true h

theorem validCells_eq_nil (g : Grid) (h : ∀ i j, (cellAt g i j).isNaN = true) :
    validCells g = [] := by
  unfold validCells
  rw [List.filter_eq_nil_iff]
  intro cv hcv
  obtain ⟨⟨i, j⟩, v⟩ := cv
  have hc := cellAt_of_mem_gridCells g i j v hcv
  have h2 := h i j
  rw [hc] at h2
  simp [h2]

theorem traceShapes_eq_nil (g : Grid) (h : ∀ i j, (cellAt g i j).isNaN = true) :
    traceShapes g = [] := by
  unfold traceShapes
  rw [validCells_eq_nil g h]
  rfl

theorem computeAvg_eq_specDerived (rmin rmax : Raster) :
    computeAvg rmin rmax =
      specDerivedGrid (maskNodata rmin.band1 rmin.nodata)
        (maskNodata rmax.band1 rmin.nodata) := rfl

theorem processPeriod_real (ex : String → Bool) (op : String → OpenRes)
    (dataDir outputDir : String) (baseline : Option Grid)
    (label f1 f2 : String) (avg : Grid) (t : Affine) (c : CRS)
    (hex : (ex (joinPath dataDir f1) && ex (joinPath dataDir f2)) = true)
    (hload : load_avg_temp op (joinPath dataDir f1) (joinPath dataDir f2) =
      some (avg, t, c)) :
    processPeriod ex op dataDir outputDir baseline (label, f1, f2) =
      { path := joinPath outputDir ("avg_temp_change_" ++ label ++ ".json"),
        features := realFeatures (changeOf baseline avg) t,
        crs := c } := by
  unfold processPeriod
  dsimp only
  rw [hex, hload]
  rfl

theorem processPeriod_sample_missing (ex : String → Bool) (op : String → OpenRes)
    (dataDir outputDir : String) (baseline : Option Grid) (label f1 f2 : String)
    (hex : (ex (joinPath dataDir f1) && ex (joinPath dataDir f2)) = false) :
    processPeriod ex op dataDir outputDir baseline (label, f1, f2) =
      { path := joinPath outputDir ("avg_temp_change_" ++ label ++ ".json"),
        features := create_sample_data label, crs := "EPSG:4326" } := by
  unfold processPeriod
  dsimp only
  rw [hex]
  rfl

theorem processPeriod_sample_loadfail (ex : String → Bool) (op : String → OpenRes)
    (dataDir outputDir : String) (baseline : Option Grid) (label f1 f2 : String)
    (hload : load_avg_temp op (joinPath dataDir f1) (joinPath dataDir f2) = none) :
    processPeriod ex op dataDir outputDir baseline (label, f1, f2) =
      { path := joinPath outputDir ("avg_temp_change_" ++ label ++ ".json"),
        features := create_sample_data label, crs := "EPSG:4326" } := by
  unfold processPeriod
  dsimp only
  rcases hb : (ex (joinPath dataDir f1) && ex (joinPath dataDir f2)) with _ | _
  · rfl
  · rw [hload]
    rfl

theorem mainOutputs_get? (cfg : Config) (ex : String → Bool) (op : String → OpenRes)
    (n : ℕ) :
    (mainOutputs cfg ex op).get? n =
      (cfg.PERIODS.get? n).map
        (processPeriod ex op cfg.DATA_DIR cfg.OUTPUT_DIR (baseline_arr cfg ex op)) := by
  unfold mainOutputs
  exact List.get?_map _ _ _

theorem FVal.isNaN_eq_true_iff (v : FVal) : v.isNaN = true ↔ v = FVal.nan := by
  cases v <;> simp [FVal.isNaN]

theorem load_avg_temp_ok {op : String → OpenRes} {p1 p2 : String}
    {rmin rmax : Raster}
    (hmin : op p1 = OpenRes.ok rmin) (hmax : op p2 = OpenRes.ok rmax) :
    load_avg_temp op p1 p2 =
      some (computeAvg rmin rmax, rmin.transform, rmin.crs) := by
  unfold load_avg_temp
  rw [hmin, hmax]

theorem cellAt_changeOf_nan (baseline : Option Grid) (avg : Grid) (i j : ℕ)
    (h : (cellAt avg i j).isNaN = true) :
    (cellAt (changeOf baseline avg) i j).isNaN = true := by
  cases baseline with
  | none => exact h
  | some b =>
    unfold changeOf
    rw [cellAt_map2 FVal.sub FVal.sub_nan_left FVal.sub_nan_right,
      (FVal.isNaN_eq_true_iff _).mp h, FVal.sub_nan_left]
    rfl

theorem realFeatures_OK (g : Grid) (t : Affine) :
    ∀ f ∈ realFeatures g t,
      nonNullGeometry f.geometry ∧ ∃ q, f.change = FVal.num q := by
  intro f hf
  rw [realFeatures, List.mem_map] at hf
  obtain ⟨k, hk, rfl⟩ := hf
  obtain ⟨hne, hval, _⟩ := traceShapes_good g k hk
  exact ⟨hne, (FVal.isNaN_eq_false_iff _).mp hval⟩

theorem create_sample_data_OK (label : String) :
    ∀ f ∈ create_sample_data label,
      nonNullGeometry f.geometry ∧ ∃ q, f.change = FVal.num q := by
  intro f hf
  rw [create_sample_data, List.mem_map] at hf
  obtain ⟨p, hp, rfl⟩ := hf
  exact ⟨by norm_num [nonNullGeometry], ⟨p.2.2, rfl⟩⟩

theorem realFeatures_exclude (g : Grid) (t : Affine) (i j : ℕ)
    (h : (cellAt g i j).isNaN = true) :
    ∀ f ∈ realFeatures g t, ∀ cells t2,
      f.geometry = Geometry.region cells t2 → (i, j) ∉ cells := by
  intro f hf cells t2 hgeom hmem
  rw [realFeatures, List.mem_map] at hf
  obtain ⟨k, hk, rfl⟩ := hf
  simp only [Geometry.region.injEq] at hgeom
  obtain ⟨hcells, _⟩ := hgeom
  subst hcells
  exact traceShapes_not_mem_of_nan g i j h k hk hmem

/-! ## Claims -/

/-- C1: for every pair of readable co-registered single-band rasters, the
loader's derived grid equals the per-cell mean of the two (nodata-masked)
band-1 arrays divided by 10, and the returned transform and spatial
reference are those of the minimum-temperature raster. -/
theorem claim_C1 (op : String → OpenRes) (tmin_path tmax_path : String)
    (g : Grid) (t : Affine) (c : CRS)
    (h : load_avg_temp op tmin_path tmax_path = some (g, t, c)) :
    ∃ rmin rmax : Raster,
      op tmin_path = OpenRes.ok rmin ∧ op tmax_path = OpenRes.ok rmax ∧
      g = specDerivedGrid (maskNodata rmin.band1 rmin.nodata)
            (maskNodata rmax.band1 rmin.nodata) ∧
      t = rmin.transform ∧ c = rmin.crs := by
  unfold load_avg_temp at h
  cases hmin : op tmin_path with
  | ioErr m => rw [hmin] at h; simp at h
  | exc m => rw [hmin] at h; simp at h
  | ok rmin =>
    rw [hmin] at h
    cases hmax : op tmax_path with
    | ioErr m => rw [hmax] at h; simp at h
    | exc m => rw [hmax] at h; simp at h
    | ok rmax =>
      rw [hmax] at h
      simp only [Option.some.injEq, Prod.mk.injEq] at h
      obtain ⟨h1, h2, h3⟩ := h
      exact ⟨rmin, rmax, rfl, rfl,
        h1 ▸ computeAvg_eq_specDerived rmin rmax, h2.symm, h3.symm⟩

/-- Witness for C1 at the spec §8 example rasters. -/
theorem claim_C1_witness :
    ∃ rmin rmax : Raster,
      c7op "tmin.tif" = OpenRes.ok rmin ∧ c7op "tmax.tif" = OpenRes.ok rmax ∧
      computeAvg c7min c7max =
        specDerivedGrid (maskNodata rmin.band1 rmin.nodata)
          (maskNodata rmax.band1 rmin.nodata) ∧
      c7t = rmin.transform ∧ "EPSG:4326" = rmin.crs :=
  claim_C1 c7op "tmin.tif" "tmax.tif" (computeAvg c7min c7max) c7t "EPSG:4326"
    rfl

/-- C2: for every period whose derived grid loads successfully, the output
grid is derived − baseline cell-wise with NaN propagating when a baseline
grid is held, and the derived grid unchanged when none is. -/
theorem claim_C2 (ex : String → Bool) (op : String → OpenRes)
    (dataDir outputDir : String) (baseline : Option Grid)
    (label f1 f2 : String) (avg : Grid) (t : Affine) (c : CRS)
    (hex : (ex (joinPath dataDir f1) && ex (joinPath dataDir f2)) = true)
    (hload : load_avg_temp op (joinPath dataDir f1) (joinPath dataDir f2) =
      some (avg, t, c)) :
    (∀ b, baseline = some b →
      processPeriod ex op dataDir outputDir baseline (label, f1, f2) =
        { path := joinPath outputDir ("avg_temp_change_" ++ label ++ ".json"),
          features := realFeatures (map2 FVal.sub avg b) t, crs := c } ∧
      ∀ i j, ((cellAt avg i j).isNaN = true ∨ (cellAt b i j).isNaN = true) →
        (cellAt (map2 FVal.sub avg b) i j).isNaN = true) ∧
    (baseline = none →
      processPeriod ex op dataDir outputDir baseline (label, f1, f2) =
        { path := joinPath outputDir ("avg_temp_change_" ++ label ++ ".json"),
          features := realFeatures avg t, crs := c }) := by
  constructor
  · intro b hb
    subst hb
    constructor
    · exact processPeriod_real ex op dataDir outputDir (some b) label f1 f2
        avg t c hex hload
    · intro i j hnan
      rw [cellAt_map2 FVal.sub FVal.sub_nan_left FVal.sub_nan_right]
      rcases hnan with hnan | hnan
      · rw [(FVal.isNaN_eq_true_iff _).mp hnan, FVal.sub_nan_left]
        rfl
      · rw [(FVal.isNaN_eq_true_iff _).mp hnan, FVal.sub_nan_right]
        rfl
  · intro hb
    subst hb
    exact processPeriod_real ex op dataDir outputDir none label f1 f2
      avg t c hex hload

/-- Witness for C2 at the spec §8 example rasters, with `c7derived` as a
baseline grid. -/
theorem claim_C2_witness :
    (∀ b, (some c7derived : Option Grid) = some b →
      processPeriod c7ex c7op "" "out" (some c7derived)
          ("2021-2040", "tmin.tif", "tmax.tif") =
        { path := joinPath "out" ("avg_temp_change_" ++ "2021-2040" ++ ".json"),
          features := realFeatures (map2 FVal.sub (computeAvg c7min c7max) b)
            c7t,
          crs := "EPSG:4326" } ∧
      ∀ i j, ((cellAt (computeAvg c7min c7max) i j).isNaN = true ∨
          (cellAt b i j).isNaN = true) →
        (cellAt (map2 FVal.sub (computeAvg c7min c7max) b) i j).isNaN = true) ∧
    ((some c7derived : Option Grid) = none →
      processPeriod c7ex c7op "" "out" (some c7derived)
          ("2021-2040", "tmin.tif", "tmax.tif") =
        { path := joinPath "out" ("avg_temp_change_" ++ "2021-2040" ++ ".json"),
          features := realFeatures (computeAvg c7min c7max) c7t,
          crs := "EPSG:4326" }) :=
  claim_C2 c7ex c7op "" "out" (some c7derived) "2021-2040" "tmin.tif"
    "tmax.tif" (computeAvg c7min c7max) c7t "EPSG:4326" (by decide) rfl

/-- C3: if the minimum-temperature raster declares a nodata sentinel, every
cell equal to that sentinel in either band is replaced with NaN before
averaging, appears as NaN in the derived grid, and is excluded from the
vectorized output. -/
theorem claim_C3 (op : String → OpenRes) (tmin_path tmax_path : String)
    (rmin rmax : Raster) (s : ℚ) (i j : ℕ)
    (hmin : op tmin_path = OpenRes.ok rmin)
    (hmax : op tmax_path = OpenRes.ok rmax)
    (hnod : rmin.nodata = some s)
    (hcell : cellAt rmin.band1 i j = FVal.num s ∨
      cellAt rmax.band1 i j = FVal.num s) :
    (cellAt rmin.band1 i j = FVal.num s →
      cellAt (maskNodata rmin.band1 rmin.nodata) i j = FVal.nan) ∧
    (cellAt rmax.band1 i j = FVal.num s →
      cellAt (maskNodata rmax.band1 rmin.nodata) i j = FVal.nan) ∧
    (∀ g t c, load_avg_temp op tmin_path tmax_path = some (g, t, c) →
      cellAt g i j = FVal.nan) ∧
    (∀ (ex : String → Bool) dataDir outputDir baseline label f1 f2,
      joinPath dataDir f1 = tmin_path → joinPath dataDir f2 = tmax_path →
      ∀ f ∈ (processPeriod ex op dataDir outputDir baseline
          (label, f1, f2)).features,
        ∀ cells t2, f.geometry = Geometry.region cells t2 → (i, j) ∉ cells) := by
  have hmask1 : cellAt rmin.band1 i j = FVal.num s →
      cellAt (maskNodata rmin.band1 rmin.nodata) i j = FVal.nan := by
    intro hc
    rw [hnod, cellAt_maskNodata, hc]
    simp [FVal.eqNum]
  have hmask2 : cellAt rmax.band1 i j = FVal.num s →
      cellAt (maskNodata rmax.band1 rmin.nodata) i j = FVal.nan := by
    intro hc
    rw [hnod, cellAt_maskNodata, hc]
    simp [FVal.eqNum]
  have hderived : cellAt (computeAvg rmin rmax) i j = FVal.nan := by
    unfold computeAvg
    rw [cellAt_map2 avgCell avgCell_nan_left avgCell_nan_right]
    rcases hcell with hc | hc
    · rw [hmask1 hc, avgCell_nan_left]
    · rw [hmask2 hc, avgCell_nan_right]
  refine ⟨hmask1, hmask2, ?_, ?_⟩
  · intro g t c hload
    rw [load_avg_temp_ok hmin hmax] at hload
    simp only [Option.some.injEq, Prod.mk.injEq] at hload
    rw [← hload.1]
    exact hderived
  · intro ex dataDir outputDir baseline label f1 f2 h1 h2 f hf cells t2 hgeom
    rcases hb : (ex (joinPath dataDir f1) && ex (joinPath dataDir f2)) with _ | _
    · rw [processPeriod_sample_missing ex op dataDir outputDir baseline
        label f1 f2 hb] at hf
      rw [create_sample_data, List.mem_map] at hf
      obtain ⟨p, _, rfl⟩ := hf
      simp at hgeom
    · rw [processPeriod_real ex op dataDir outputDir baseline label f1 f2
        (computeAvg rmin rmax) rmin.transform rmin.crs hb
        (by rw [h1, h2]; exact load_avg_temp_ok hmin hmax)] at hf
      have hnan : (cellAt (changeOf baseline (computeAvg rmin rmax)) i j).isNaN
          = true := by
        apply cellAt_changeOf_nan
        rw [hderived]
        rfl
      exact realFeatures_exclude (changeOf baseline (computeAvg rmin rmax))
        rmin.transform i j hnan f hf cells t2 hgeom

/-- Witness for C3 at the spec §8 example: the sentinel cell `(1, 1)` of the
minimum-temperature band. -/
theorem claim_C3_witness :
    (cellAt c7min.band1 1 1 = FVal.num (-9999) →
      cellAt (maskNodata c7min.band1 c7min.nodata) 1 1 = FVal.nan) ∧
    (cellAt c7max.band1 1 1 = FVal.num (-9999) →
      cellAt (maskNodata c7max.band1 c7min.nodata) 1 1 = FVal.nan) ∧
    (∀ g t c, load_avg_temp c7op "tmin.tif" "tmax.tif" = some (g, t, c) →
      cellAt g 1 1 = FVal.nan) ∧
    (∀ (ex : String → Bool) dataDir outputDir baseline label f1 f2,
      joinPath dataDir f1 = "tmin.tif" → joinPath dataDir f2 = "tmax.tif" →
      ∀ f ∈ (processPeriod ex c7op dataDir outputDir baseline
          (label, f1, f2)).features,
        ∀ cells t2, f.geometry = Geometry.region cells t2 → (1, 1) ∉ cells) :=
  claim_C3 c7op "tmin.tif" "tmax.tif" c7min c7max (-9999) 1 1 rfl rfl rfl
    (Or.inl (by decide))

/-- C4: when a period's input pair is missing, the emitted collection is the
fixed fallback set — 15 features, each a 5-degree circular buffer around a
hardcoded point carrying its hardcoded value, identical for every label —
and only the output file name `avg_temp_change_<label>.json` varies. -/
theorem claim_C4 (ex : String → Bool) (op : String → OpenRes)
    (dataDir outputDir : String) (baseline : Option Grid) (label f1 f2 : String)
    (hmiss : (ex (joinPath dataDir f1) && ex (joinPath dataDir f2)) = false) :
    processPeriod ex op dataDir outputDir baseline (label, f1, f2) =
      { path := joinPath outputDir ("avg_temp_change_" ++ label ++ ".json"),
        features := create_sample_data label, crs := "EPSG:4326" } ∧
    (create_sample_data label).length = 15 ∧
    (∀ lab2 : String, create_sample_data label = create_sample_data lab2) ∧
    ∀ f ∈ create_sample_data label, ∃ lat lon v : ℚ,
      (lat, lon, v) ∈ sample_points ∧
      f = { change := FVal.num v, geometry := Geometry.circleBuffer lon lat 5 } := by
  refine ⟨processPeriod_sample_missing ex op dataDir outputDir baseline
    label f1 f2 hmiss, rfl, fun lab2 => rfl, ?_⟩
  intro f hf
  rw [create_sample_data, List.mem_map] at hf
  obtain ⟨p, hp, rfl⟩ := hf
  exact ⟨p.1, p.2.1, p.2.2, hp, rfl⟩

/-- Witness for C4: a filesystem on which no file exists. -/
theorem claim_C4_witness :
    processPeriod (fun _ => false) c7op "" "out" none ("2021-2040", "a", "b") =
      { path := joinPath "out" ("avg_temp_change_" ++ "2021-2040" ++ ".json"),
        features := create_sample_data "2021-2040", crs := "EPSG:4326" } ∧
    (create_sample_data "2021-2040").length = 15 ∧
    (∀ lab2 : String,
      create_sample_data "2021-2040" = create_sample_data lab2) ∧
    ∀ f ∈ create_sample_data "2021-2040", ∃ lat lon v : ℚ,
      (lat, lon, v) ∈ sample_points ∧
      f = { change := FVal.num v,
            geometry := Geometry.circleBuffer lon lat 5 } :=
  claim_C4 (fun _ => false) c7op "" "out" none "2021-2040" "a" "b" rfl

/-- C5: any failure to open or read either raster is caught inside the
loader and surfaces as `none`; the affected period then emits the fallback
sample features, and every period's output is a function of its own
descriptor alone. -/
theorem claim_C5 (op : String → OpenRes) (p1 p2 : String)
    (hfail : (∃ m, op p1 = OpenRes.ioErr m) ∨ (∃ m, op p1 = OpenRes.exc m) ∨
      (∃ r, op p1 = OpenRes.ok r ∧
        ((∃ m, op p2 = OpenRes.ioErr m) ∨ (∃ m, op p2 = OpenRes.exc m)))) :
    load_avg_temp op p1 p2 = none ∧
    (∀ (ex : String → Bool) dataDir outputDir baseline label f1 f2,
      joinPath dataDir f1 = p1 → joinPath dataDir f2 = p2 →
      processPeriod ex op dataDir outputDir baseline (label, f1, f2) =
        { path := joinPath outputDir ("avg_temp_change_" ++ label ++ ".json"),
          features := create_sample_data label, crs := "EPSG:4326" }) ∧
    (∀ (cfg : Config) (exa : String → Bool) (n : ℕ),
      (mainOutputs cfg exa op).get? n = (cfg.PERIODS.get? n).map
        (processPeriod exa op cfg.DATA_DIR cfg.OUTPUT_DIR
          (baseline_arr cfg exa op))) := by
  have hnone : load_avg_temp op p1 p2 = none := by
    unfold load_avg_temp
    rcases hfail with ⟨m, hm⟩ | ⟨m, hm⟩ | ⟨r, hr, hf2⟩
    · rw [hm]
    · rw [hm]
    · rw [hr]
      rcases hf2 with ⟨m, hm⟩ | ⟨m, hm⟩ <;> rw [hm]
  refine ⟨hnone, ?_, ?_⟩
  · intro ex dataDir outputDir baseline label f1 f2 h1 h2
    apply processPeriod_sample_loadfail
    rw [h1, h2]
    exact hnone
  · intro cfg exa n
    exact mainOutputs_get? cfg exa op n

/-- Witness for C5: the filesystem on which every open raises an I/O
error. -/
theorem claim_C5_witness :
    load_avg_temp c5op "tmin.tif" "tmax.tif" = none ∧
    (∀ (ex : String → Bool) dataDir outputDir baseline label f1 f2,
      joinPath dataDir f1 = "tmin.tif" → joinPath dataDir f2 = "tmax.tif" →
      processPeriod ex c5op dataDir outputDir baseline (label, f1, f2) =
        { path := joinPath outputDir ("avg_temp_change_" ++ label ++ ".json"),
          features := create_sample_data label, crs := "EPSG:4326" }) ∧
    (∀ (cfg : Config) (exa : String → Bool) (n : ℕ),
      (mainOutputs cfg exa c5op).get? n = (cfg.PERIODS.get? n).map
        (processPeriod exa c5op cfg.DATA_DIR cfg.OUTPUT_DIR
          (baseline_arr cfg exa c5op))) :=
  claim_C5 c5op "tmin.tif" "tmax.tif" (Or.inl ⟨"corrupt file", rfl⟩)

/-- C7: the spec §8 example — 4×4 rasters, min band 100 except sentinel
-9999 at one cell, max band 200, no baseline — yields a derived grid of
15.0 everywhere except NaN at the nodata cell, and one output polygon
covering the 15 valid cells with change value 15, the nodata cell
excluded. -/
theorem claim_C7 :
    load_avg_temp c7op "tmin.tif" "tmax.tif" =
      some (c7derived, c7t, "EPSG:4326") ∧
    (processPeriod c7ex c7op "" "out" none
        ("2021-2040", "tmin.tif", "tmax.tif")).features =
      [{ change := FVal.num 15, geometry := Geometry.region c7cells c7t }] ∧
    (processPeriod c7ex c7op "" "out" none
        ("2021-2040", "tmin.tif", "tmax.tif")).path =
      joinPath "out" "avg_temp_change_2021-2040.json" ∧
    c7cells.length = 15 ∧
    decide ((1, 1) ∈ c7cells) = false ∧
    c7cells.Perm ((((List.range 4).map fun i =>
      (List.range 4).map fun j => (i, j)).flatten).filter
        fun c2 => decide (c2 ≠ (1, 1))) ∧
    cellAt c7derived 1 1 = FVal.nan := by
  have havg : computeAvg c7min c7max = c7derived := by
    norm_num [computeAvg, c7min, c7max, c7minBand, c7maxBand, maskNodata,
      maskRow, map2, avgCell, FVal.add, FVal.divC, FVal.eqNum, c7derived]
  have htrace : traceShapes c7derived =
      [{ val := FVal.num 15, cells := c7cells }] := by decide
  have hload : load_avg_temp c7op "tmin.tif" "tmax.tif" =
      some (c7derived, c7t, "EPSG:4326") := by
    rw [load_avg_temp_ok (rfl : c7op "tmin.tif" = OpenRes.ok c7min)
      (rfl : c7op "tmax.tif" = OpenRes.ok c7max), havg]
    rfl
  have hfeat : (processPeriod c7ex c7op "" "out" none
      ("2021-2040", "tmin.tif", "tmax.tif")).features =
      [{ change := FVal.num 15, geometry := Geometry.region c7cells c7t }] := by
    rw [processPeriod_real c7ex c7op "" "out" none "2021-2040" "tmin.tif"
      "tmax.tif" c7derived c7t "EPSG:4326" (by decide) hload]
    simp only [realFeatures, changeOf]
    rw [htrace]
    rfl
  exact ⟨hload, hfeat, rfl, by decide, by decide, by decide, by decide⟩

/-- C6: on both processing paths, every emitted feature has a non-null
geometry and a finite scalar change property. -/
theorem claim_C6 (ex : String → Bool) (op : String → OpenRes)
    (dataDir outputDir : String) (baseline : Option Grid) (p : Period) :
    ∀ f ∈ (processPeriod ex op dataDir outputDir baseline p).features,
      nonNullGeometry f.geometry ∧ ∃ q, f.change = FVal.num q := by
  obtain ⟨label, f1, f2⟩ := p
  rcases hb : (ex (joinPath dataDir f1) && ex (joinPath dataDir f2)) with _ | _
  · rw [processPeriod_sample_missing ex op dataDir outputDir baseline
      label f1 f2 hb]
    exact create_sample_data_OK label
  · cases hload : load_avg_temp op (joinPath dataDir f1)
        (joinPath dataDir f2) with
    | none =>
      rw [processPeriod_sample_loadfail ex op dataDir outputDir baseline
        label f1 f2 hload]
      exact create_sample_data_OK label
    | some gtc =>
      obtain ⟨avg, t, c⟩ := gtc
      rw [processPeriod_real ex op dataDir outputDir baseline label f1 f2
        avg t c hb hload]
      exact realFeatures_OK (changeOf baseline avg) t

/-- Witness for C6: the first fallback feature of a period with no
inputs. -/
theorem claim_C6_witness :
    nonNullGeometry
      (Feature.mk (FVal.num (-5/2)) (Geometry.circleBuffer (-100) 60 5)).geometry ∧
    ∃ q, (Feature.mk (FVal.num (-5/2))
      (Geometry.circleBuffer (-100) 60 5)).change = FVal.num q :=
  claim_C6 (fun _ => false) c7op "" "out" none ("2021-2040", "a", "b")
    (Feature.mk (FVal.num (-5/2)) (Geometry.circleBuffer (-100) 60 5))
    (List.mem_cons_self _ _)

/-- C8: the pipeline is deterministic — two runs over filesystems that
agree on existence checks and open results produce identical outputs for
every period. -/
theorem claim_C8 (cfg : Config) (ex1 ex2 : String → Bool)
    (op1 op2 : String → OpenRes)
    (hbase : cfg.BASELINE_PERIOD = none)
    (hex : ∀ pth, ex1 pth = ex2 pth) (hop : ∀ pth, op1 pth = op2 pth) :
    mainOutputs cfg ex1 op1 = mainOutputs cfg ex2 op2 := by
  rw [funext hex, funext hop]

/-- Witness for C8 at the shipped configuration. -/
theorem claim_C8_witness :
    mainOutputs sourceConfig (fun _ => false) c5op =
      mainOutputs sourceConfig (fun _ => false) c5op :=
  claim_C8 sourceConfig (fun _ => false) (fun _ => false) c5op c5op rfl
    (fun _ => rfl) (fun _ => rfl)

/-- C9: a configured baseline whose load fails (or is never attempted
because no period's pair exists) leaves the baseline grid absent; every
period whose own load succeeds then writes average-temperature features,
and the run still emits one output per period. -/
theorem claim_C9 (cfg : Config) (ex : String → Bool) (op : String → OpenRes)
    (bp : Period)
    (hb : cfg.BASELINE_PERIOD = some bp)
    (hfail : load_avg_temp op (joinPath cfg.DATA_DIR bp.2.1)
        (joinPath cfg.DATA_DIR bp.2.2) = none ∨
      tiff_files_exist ex cfg.PERIODS = false) :
    baseline_arr cfg ex op = none ∧
    (∀ label f1 f2 avg t c,
      (ex (joinPath cfg.DATA_DIR f1) && ex (joinPath cfg.DATA_DIR f2)) = true →
      load_avg_temp op (joinPath cfg.DATA_DIR f1) (joinPath cfg.DATA_DIR f2) =
        some (avg, t, c) →
      processPeriod ex op cfg.DATA_DIR cfg.OUTPUT_DIR (baseline_arr cfg ex op)
          (label, f1, f2) =
        { path := joinPath cfg.OUTPUT_DIR
            ("avg_temp_change_" ++ label ++ ".json"),
          features := realFeatures avg t, crs := c }) ∧
    (mainOutputs cfg ex op).length = cfg.PERIODS.length := by
  have hbnone : baseline_arr cfg ex op = none := by
    have hstep : baseline_arr cfg ex op =
        if tiff_files_exist ex cfg.PERIODS then
          match load_avg_temp op (joinPath cfg.DATA_DIR bp.2.1)
              (joinPath cfg.DATA_DIR bp.2.2) with
          | some (g, _, _) => some g
          | none => none
        else none := by
      unfold baseline_arr
      rw [hb]
    rw [hstep]
    rcases hfail with hf | hf
    · rw [hf]
      rcases tiff_files_exist ex cfg.PERIODS with _ | _ <;> rfl
    · rw [hf]
      rfl
  refine ⟨hbnone, ?_, ?_⟩
  · intro label f1 f2 avg t c hexist hload
    rw [hbnone]
    exact processPeriod_real ex op cfg.DATA_DIR cfg.OUTPUT_DIR none
      label f1 f2 avg t c hexist hload
  · unfold mainOutputs
    exact List.length_map _ _

/-- Witness for C9: baseline configured, no input pair exists. -/
theorem claim_C9_witness :
    baseline_arr c9cfg (fun _ => false) c10op = none ∧
    (∀ label f1 f2 avg t c,
      ((fun _ => false : String → Bool) (joinPath c9cfg.DATA_DIR f1) &&
        (fun _ => false : String → Bool) (joinPath c9cfg.DATA_DIR f2)) = true →
      load_avg_temp c10op (joinPath c9cfg.DATA_DIR f1)
          (joinPath c9cfg.DATA_DIR f2) = some (avg, t, c) →
      processPeriod (fun _ => false) c10op c9cfg.DATA_DIR c9cfg.OUTPUT_DIR
          (baseline_arr c9cfg (fun _ => false) c10op) (label, f1, f2) =
        { path := joinPath c9cfg.OUTPUT_DIR
            ("avg_temp_change_" ++ label ++ ".json"),
          features := realFeatures avg t, crs := c }) ∧
    (mainOutputs c9cfg (fun _ => false) c10op).length =
      c9cfg.PERIODS.length :=
  claim_C9 c9cfg (fun _ => false) c10op
    ("1970-2000", "wc2.1_10m_tmin_1970-2000.tif",
      "wc2.1_10m_tmax_1970-2000.tif")
    rfl (Or.inr rfl)

/-- C10: when a period's rasters load but the output grid is entirely NaN,
the real-data path emits an empty feature collection and still produces its
output file; it does not fall back to the 15 sample features. -/
theorem claim_C10 (ex : String → Bool) (op : String → OpenRes)
    (dataDir outputDir : String) (baseline : Option Grid)
    (label f1 f2 : String) (avg : Grid) (t : Affine) (c : CRS)
    (hex : (ex (joinPath dataDir f1) && ex (joinPath dataDir f2)) = true)
    (hload : load_avg_temp op (joinPath dataDir f1) (joinPath dataDir f2) =
      some (avg, t, c))
    (hnan : ∀ i j, (cellAt (changeOf baseline avg) i j).isNaN = true) :
    processPeriod ex op dataDir outputDir baseline (label, f1, f2) =
      { path := joinPath outputDir ("avg_temp_change_" ++ label ++ ".json"),
        features := [], crs := c } ∧
    (create_sample_data label).length = 15 := by
  refine ⟨?_, rfl⟩
  rw [processPeriod_real ex op dataDir outputDir baseline label f1 f2
    avg t c hex hload]
  have : realFeatures (changeOf baseline avg) t = [] := by
    unfold realFeatures
    rw [traceShapes_eq_nil _ hnan]
    rfl
  rw [this]

/-- Witness for C10: a 1×1 raster whose only cell is its nodata sentinel. -/
theorem claim_C10_witness :
    processPeriod (fun _ => true) c10op "" "out" none
        ("2081-2100", "a.tif", "b.tif") =
      { path := joinPath "out" ("avg_temp_change_" ++ "2081-2100" ++ ".json"),
        features := [], crs := "EPSG:4326" } ∧
    (create_sample_data "2081-2100").length = 15 :=
  claim_C10 (fun _ => true) c10op "" "out" none "2081-2100" "a.tif" "b.tif"
    (computeAvg c10r c10r) c7t "EPSG:4326" rfl rfl
    (by intro i j; rcases i with _ | i <;> rcases j with _ | j <;> rfl)
